import Mathlib

/-!
# Verification of the To-Do API core (auth + ownership-scoped CRUD)

Shallow embedding of the repository's core logic:

* `app/schemas.py` — enums and request schemas (`TaskStatus`, `TaskPriority`,
  `TaskCreate`, `TaskUpdate`, `UserCreate`, `TaskSummary`);
* `app/models.py`  — persisted records (`User`, `Task`), with datetimes as `Nat`;
* `app/crud.py`    — the CRUD layer over an explicit database state `DB`;
* `app/main.py`    — the HTTP handlers, returning a typed `HandlerResult`
  (`ok`, `error status detail`, or `crash` for an unhandled `None` dereference).

The token service (`app/security.py`) is not part of the provided sources;
it is modelled from the spec (section 4.2) below.
-/

namespace TodoApi

/-- `TaskStatus` enum from `app/schemas.py`. -/
inductive TaskStatus where
  | todo
  | in_progress
  | completed
deriving DecidableEq, Repr

/-- `TaskPriority` enum from `app/schemas.py`. -/
inductive TaskPriority where
  | low
  | medium
  | high
deriving DecidableEq, Repr

/-- `User` model from `app/models.py` (timestamps elided; they are
server-managed and no claim mentions them). -/
structure User where
  id : Nat
  username : String
  email : String
  hashed_password : String
  is_active : Bool
deriving DecidableEq, Repr

/-- `Task` model from `app/models.py`. Datetimes are modelled as `Nat`
instants; nullable columns as `Option`. -/
structure Task where
  id : Nat
  user_id : Nat
  title : String
  description : Option String
  status : TaskStatus
  priority : TaskPriority
  due_date : Option Nat
  completed_at : Option Nat
  created_at : Nat
  updated_at : Nat
deriving DecidableEq, Repr

/-- `UserCreate` schema from `app/schemas.py`. -/
structure UserCreate where
  username : String
  email : String
  password : String
deriving DecidableEq, Repr

/-- `TaskCreate` schema from `app/schemas.py` (defaults are applied by
pydantic before the handler runs, so every field is present here). -/
structure TaskCreate where
  title : String
  description : Option String
  status : TaskStatus
  priority : TaskPriority
  due_date : Option Nat
deriving DecidableEq, Repr

/-- `TaskUpdate` schema from `app/schemas.py`: a partial update.
`none` means the field was not set in the request (pydantic
`model_dump(exclude_unset=True)` drops it); for the nullable columns
`description` and `due_date` the inner `Option` is the stored value. -/
structure TaskUpdate where
  title : Option String := none
  description : Option (Option String) := none
  status : Option TaskStatus := none
  priority : Option TaskPriority := none
  due_date : Option (Option Nat) := none
deriving DecidableEq, Repr

/-- `TaskSummary` schema from `app/schemas.py`; `completion_rate` is a
Python float computed by true division, modelled as `ℚ`. -/
structure TaskSummary where
  total_tasks : Nat
  completed_tasks : Nat
  in_progress_tasks : Nat
  todo_tasks : Nat
  completion_rate : ℚ
deriving DecidableEq, Repr

/-- The database state the CRUD layer (`app/crud.py`) reads and writes:
the `users` and `tasks` tables as lists of rows. -/
structure DB where
  users : List User
  tasks : List Task
deriving DecidableEq, Repr

/-! ## CRUD layer (`app/crud.py`) -/

/-- `crud.get_user`: first user row with the given id. -/
def get_user (db : DB) (user_id : Nat) : Option User :=
  db.users.find? (fun u => u.id == user_id)

/-- `crud.get_user_by_username`: first user row with the given username. -/
def get_user_by_username (db : DB) (username : String) : Option User :=
  db.users.find? (fun u => u.username == username)

/-- `crud.get_user_by_email`: first user row with the given email. -/
def get_user_by_email (db : DB) (email : String) : Option User :=
  db.users.find? (fun u => u.email == email)

/-- `crud.create_user`: inserts a new user row. The password hash is the
collaborator `security.get_password_hash`, passed in as `hash`; the
database assigns the fresh primary key `newId`. -/
def create_user (db : DB) (user : UserCreate) (hash : String → String)
    (newId : Nat) : User × DB :=
  let u : User :=
    { id := newId
      username := user.username
      email := user.email
      hashed_password := hash user.password
      is_active := true }
  (u, { db with users := db.users ++ [u] })

/-- `crud.create_task`: inserts a new task row. `completed_at` is not
among the constructor arguments in the source, so the column keeps its
`NULL` default; `created_at`/`updated_at` come from the server clock
`now`, and the database assigns the fresh primary key `newId`. -/
def create_task (db : DB) (user_id : Nat) (task : TaskCreate)
    (newId now : Nat) : Task × DB :=
  let t : Task :=
    { id := newId
      user_id := user_id
      title := task.title
      description := task.description
      status := task.status
      priority := task.priority
      due_date := task.due_date
      completed_at := none
      created_at := now
      updated_at := now }
  (t, { db with tasks := db.tasks ++ [t] })

/-- `crud.get_task`: first task row with the given id. -/
def get_task (db : DB) (task_id : Nat) : Option Task :=
  db.tasks.find? (fun t => t.id == task_id)

/-- `crud.get_user_tasks`: the user's tasks, optionally filtered by
status (every `TaskStatus` value is a nonempty string, hence truthy, so
`if status:` in the source is exactly the `some` test). -/
def get_user_tasks (db : DB) (user_id : Nat)
    (status : Option TaskStatus) : List Task :=
  let base := db.tasks.filter (fun t => t.user_id == user_id)
  match status with
  | some s => base.filter (fun t => t.status == s)
  | none => base

/-- The field-application part of `crud.update_task`: build
`update_data = task_update.model_dump(exclude_unset=True)`, add the
`completed_at` entry when `status` is among the updated fields, then
`setattr` each entry; the database stamps `updated_at := now` on commit. -/
def apply_update (task : Task) (u : TaskUpdate) (now : Nat) : Task :=
  let t := match u.title with
    | some v => { task with title := v }
    | none => task
  let t := match u.description with
    | some v => { t with description := v }
    | none => t
  let t := match u.status with
    | some v => { t with status := v }
    | none => t
  let t := match u.priority with
    | some v => { t with priority := v }
    | none => t
  let t := match u.due_date with
    | some v => { t with due_date := v }
    | none => t
  let t := match u.status with
    | some TaskStatus.completed => { t with completed_at := some now }
    | some _ => { t with completed_at := none }
    | none => t
  { t with updated_at := now }

/-- `crud.update_task`: mutates the given task row in place and commits;
in the explicit-state embedding the row with the task's id is replaced. -/
def update_task (db : DB) (task : Task) (u : TaskUpdate) (now : Nat) :
    Task × DB :=
  let t := apply_update task u now
  (t, { db with tasks := db.tasks.map (fun x => if x.id == task.id then t else x) })

/-- `crud.delete_task`: removes the task's row. -/
def delete_task (db : DB) (task : Task) : DB :=
  { db with tasks := db.tasks.filter (fun x => x.id != task.id) }

/-- `crud.get_task_summary`: aggregate over `get_user_tasks` with no
status filter; `completion_rate` uses true division guarded by
`total > 0`. -/
def get_task_summary (db : DB) (user_id : Nat) : TaskSummary :=
  let tasks := get_user_tasks db user_id none
  let total := tasks.length
  let completed := (tasks.filter (fun t => t.status == TaskStatus.completed)).length
  let in_progress := (tasks.filter (fun t => t.status == TaskStatus.in_progress)).length
  let todo := (tasks.filter (fun t => t.status == TaskStatus.todo)).length
  { total_tasks := total
    completed_tasks := completed
    in_progress_tasks := in_progress
    todo_tasks := todo
    completion_rate := if total > 0 then (completed : ℚ) / (total : ℚ) * 100 else 0 }

/-! ## Token service (`app/security.py` is not among the provided sources) -/

/-- Modelled from the spec: the wire form of a presented bearer token.
`app/security.py` (token encoding/decoding) is missing from the sources;
per spec section 4.2 a token either fails to parse (`malformed`) or
carries a subject claim, an absolute expiry instant, and a signature
segment. -/
inductive TokenWire where
  | malformed : String → TokenWire
  | signed : String → Nat → Nat → TokenWire
deriving DecidableEq, Repr

/-- Token validation failures from spec section 4.2. -/
inductive TokenError where
  | invalidToken
  | badSignature
  | expired
deriving DecidableEq, Repr

/-- Modelled from the spec: the HMAC-class signature over the token's
payload under the process-wide secret. Only the properties the spec
demands are used: the tag is a function of secret, subject and expiry,
and distinct secrets give distinct tags (`Nat.pair` is injective in its
first argument). -/
def mac (secret : Nat) (subject : String) (expiry : Nat) : Nat :=
  Nat.pair secret (Nat.pair (subject.foldl (fun a c => Nat.pair a c.toNat) 0) expiry)

/-- Modelled from the spec: `issue(subject, ttl)` from spec section 4.2
(implemented by the missing `security.create_access_token`): embeds the
subject and the absolute expiry `now + ttl`, signed with the
process-wide secret. -/
def issue (secret : Nat) (subject : String) (ttl now : Nat) : TokenWire :=
  TokenWire.signed subject (now + ttl) (mac secret subject (now + ttl))

/-- Modelled from the spec: `validate(token)` from spec section 4.2
(implemented by the missing `security` decode path): a malformed token
is `InvalidToken`; a signature segment that does not match the payload
under the process secret is `BadSignature`; otherwise the token is
`Expired` whenever current time ≥ embedded expiry (expiry inclusive of
now), and the subject is returned only below expiry. -/
def validate (secret : Nat) (tok : TokenWire) (now : Nat) :
    Except TokenError String :=
  match tok with
  | TokenWire.malformed _ => Except.error TokenError.invalidToken
  | TokenWire.signed subject expiry sig =>
    if sig ≠ mac secret subject expiry then Except.error TokenError.badSignature
    else if expiry ≤ now then Except.error TokenError.expired
    else Except.ok subject

/-! ## HTTP handlers (`app/main.py`) -/

/-- Outcome of a handler in `app/main.py`: a success value, an
`HTTPException` with its status code and detail string, or `crash` for
an unhandled exception (the `AttributeError` raised by dereferencing a
`None` user in the ownership check). -/
inductive HandlerResult (α : Type) where
  | ok : α → HandlerResult α
  | error : Nat → String → HandlerResult α
  | crash : HandlerResult α
deriving DecidableEq, Repr

/-- `main.register`: username-duplicate check, then email-duplicate
check, then `crud.create_user`. -/
def handler_register (db : DB) (user : UserCreate) (hash : String → String)
    (newId : Nat) : HandlerResult User × DB :=
  match get_user_by_username db user.username with
  | some _ => (HandlerResult.error 400 "Username already registered", db)
  | none =>
    match get_user_by_email db user.email with
    | some _ => (HandlerResult.error 400 "Email already registered", db)
    | none =>
      let r := create_user db user hash newId
      (HandlerResult.ok r.1, r.2)

/-- `main.login`: `if not user or not verify_password(...)` raises 401,
otherwise a bearer token for the user's username is issued.
`security.verify_password` is an external collaborator passed as
`verify`; token issuance uses the spec-modelled `issue` with the
configured TTL. -/
def handler_login (db : DB) (username password : String)
    (verify : String → String → Bool) (secret ttl now : Nat) :
    HandlerResult TokenWire :=
  match get_user_by_username db username with
  | none => HandlerResult.error 401 "Incorrect username or password"
  | some user =>
    if verify password user.hashed_password then
      HandlerResult.ok (issue secret user.username ttl now)
    else
      HandlerResult.error 401 "Incorrect username or password"

/-- `main.create_task` handler: resolves the authenticated username; a
missing user is a handled 404, then `crud.create_task`. -/
def handler_create_task (db : DB) (current_username : String)
    (task : TaskCreate) (newId now : Nat) : HandlerResult Task × DB :=
  match get_user_by_username db current_username with
  | none => (HandlerResult.error 404 "User not found", db)
  | some user =>
    let r := create_task db user.id task newId now
    (HandlerResult.ok r.1, r.2)

/-- `main.get_task` handler: task lookup first (404 on miss), then the
ownership check `task.user_id != user.id` on the user resolved from the
token's subject — with no `None` check on that user, so a missing user
is an unhandled crash. -/
def handler_get_task (db : DB) (current_username : String) (task_id : Nat) :
    HandlerResult Task :=
  match get_task db task_id with
  | none => HandlerResult.error 404 "Task not found"
  | some task =>
    match get_user_by_username db current_username with
    | none => HandlerResult.crash
    | some user =>
      if task.user_id ≠ user.id then HandlerResult.error 403 "Not authorized"
      else HandlerResult.ok task

/-- `main.update_task` handler: same not-found-then-ownership sequence
as `main.get_task`, then `crud.update_task`. -/
def handler_update_task (db : DB) (current_username : String)
    (task_id : Nat) (u : TaskUpdate) (now : Nat) :
    HandlerResult Task × DB :=
  match get_task db task_id with
  | none => (HandlerResult.error 404 "Task not found", db)
  | some task =>
    match get_user_by_username db current_username with
    | none => (HandlerResult.crash, db)
    | some user =>
      if task.user_id ≠ user.id then (HandlerResult.error 403 "Not authorized", db)
      else
        let r := update_task db task u now
        (HandlerResult.ok r.1, r.2)

/-- `main.delete_task` handler: same not-found-then-ownership sequence,
then `crud.delete_task`; success is a 204 with no body (`ok ()`). -/
def handler_delete_task (db : DB) (current_username : String)
    (task_id : Nat) : HandlerResult Unit × DB :=
  match get_task db task_id with
  | none => (HandlerResult.error 404 "Task not found", db)
  | some task =>
    match get_user_by_username db current_username with
    | none => (HandlerResult.crash, db)
    | some user =>
      if task.user_id ≠ user.id then (HandlerResult.error 403 "Not authorized", db)
      else (HandlerResult.ok (), delete_task db task)

/-- `main.get_task_summary` handler: resolves the user (handled 404 on
miss) and delegates to `crud.get_task_summary`. -/
def handler_get_task_summary (db : DB) (current_username : String) :
    HandlerResult TaskSummary :=
  match get_user_by_username db current_username with
  | none => HandlerResult.error 404 "User not found"
  | some user => HandlerResult.ok (get_task_summary db user.id)

/-- The `completed_at` invariant of spec section 3: `completed_at` is
non-null iff status is `completed`. -/
def CompletedInv (t : Task) : Prop :=
  t.completed_at ≠ none ↔ t.status = TaskStatus.completed

instance (t : Task) : Decidable (CompletedInv t) := by
  unfold CompletedInv; infer_instance

/-- `isOk r` holds exactly on successful handler outcomes. -/
def isOk {α : Type} : HandlerResult α → Bool
  | HandlerResult.ok _ => true
  | _ => false

/-! ## Concrete data for witnesses -/

/-- Sample user row, as in the spec's scenarios. -/
def alice : User :=
  { id := 1, username := "alice", email := "alice@x.com"
    hashed_password := "hA", is_active := true }

/-- A second sample user row with a different id. -/
def bob : User :=
  { id := 2, username := "bob", email := "bob@x.com"
    hashed_password := "hB", is_active := true }

/-- Sample task row owned by `alice`. -/
def task1 : Task :=
  { id := 1, user_id := 1, title := "T", description := none
    status := TaskStatus.todo, priority := TaskPriority.medium
    due_date := none, completed_at := none, created_at := 0, updated_at := 0 }

/-- Sample database with both users and `alice`'s task. -/
def db1 : DB := { users := [alice, bob], tasks := [task1] }

/-- Empty database. -/
def db0 : DB := { users := [], tasks := [] }

/-- A second task for `alice`, already completed. -/
def task2 : Task :=
  { task1 with id := 2, status := TaskStatus.completed, completed_at := some 1 }

/-- Database with `alice` owning one `todo` and one `completed` task. -/
def dbSum : DB := { users := [alice], tasks := [task1, task2] }

/-! ## Helper lemmas -/

/-- A field-by-field description of `apply_update`: each updated field
takes the requested value, every other column keeps its prior value,
`completed_at` follows the status entry, and `updated_at` is stamped. -/
theorem apply_update_spec (task : Task) (u : TaskUpdate) (now : Nat) :
    (apply_update task u now).title = u.title.getD task.title ∧
    (apply_update task u now).description = u.description.getD task.description ∧
    (apply_update task u now).status = u.status.getD task.status ∧
    (apply_update task u now).priority = u.priority.getD task.priority ∧
    (apply_update task u now).due_date = u.due_date.getD task.due_date ∧
    (apply_update task u now).completed_at =
      (match u.status with
        | none => task.completed_at
        | some TaskStatus.completed => some now
        | some _ => none) ∧
    (apply_update task u now).id = task.id ∧
    (apply_update task u now).user_id = task.user_id ∧
    (apply_update task u now).created_at = task.created_at ∧
    (apply_update task u now).updated_at = now := by
  obtain ⟨ti, de, st, pr, du⟩ := u
  rcases st with _ | s
  · cases ti <;> cases de <;> cases pr <;> cases du <;>
      exact ⟨rfl, rfl, rfl, rfl, rfl, rfl, rfl, rfl, rfl, rfl⟩
  · cases s <;> cases ti <;> cases de <;> cases pr <;> cases du <;>
      exact ⟨rfl, rfl, rfl, rfl, rfl, rfl, rfl, rfl, rfl, rfl⟩

/-! ## Claims -/

/-- C9: a successful update changes exactly the fields present in the
partial update, plus `completed_at` when `status` is among them and the
`updated_at` stamp; `title`, `description`, `priority`, `due_date`,
`user_id`, `id`, `created_at` keep their prior values when absent, and
an update without `status` never changes `completed_at`. -/
theorem c9_update_frame (db : DB) (task : Task) (u : TaskUpdate) (now : Nat) :
    ((update_task db task u now).1).title = u.title.getD task.title ∧
    ((update_task db task u now).1).description = u.description.getD task.description ∧
    ((update_task db task u now).1).status = u.status.getD task.status ∧
    ((update_task db task u now).1).priority = u.priority.getD task.priority ∧
    ((update_task db task u now).1).due_date = u.due_date.getD task.due_date ∧
    ((update_task db task u now).1).completed_at =
      (match u.status with
        | none => task.completed_at
        | some TaskStatus.completed => some now
        | some _ => none) ∧
    ((update_task db task u now).1).id = task.id ∧
    ((update_task db task u now).1).user_id = task.user_id ∧
    ((update_task db task u now).1).created_at = task.created_at ∧
    ((update_task db task u now).1).updated_at = now :=
  apply_update_spec task u now

/-- C1 counterexample: a task created with status `completed` has
`completed_at = null` — `crud.create_task` never sets `completed_at` —
so the claimed invariant fails right after creation. -/
theorem c1_create_completed_violates_invariant :
    (create_task db0 1
        { title := "T", description := none, status := TaskStatus.completed
          priority := TaskPriority.medium, due_date := none } 1 0).1.status
        = TaskStatus.completed ∧
    (create_task db0 1
        { title := "T", description := none, status := TaskStatus.completed
          priority := TaskPriority.medium, due_date := none } 1 0).1.completed_at
        = none ∧
    ¬ CompletedInv (create_task db0 1
        { title := "T", description := none, status := TaskStatus.completed
          priority := TaskPriority.medium, due_date := none } 1 0).1 := by
  refine ⟨rfl, rfl, ?_⟩
  decide

/-- C1 (amended): `create_task` always stores `completed_at = null`, so
the invariant holds after creation exactly when the created status is
not `completed`; an update whose fields set status to `completed` sets
`completed_at` to the current time, an update setting any other status
clears it (so every status-carrying update establishes the invariant),
and an update without status preserves it. -/
theorem c1_completed_at_invariant (db : DB) (uid : Nat) (tc : TaskCreate)
    (newId now : Nat) (task : Task) (u : TaskUpdate) (s : TaskStatus) :
    ((create_task db uid tc newId now).1.completed_at = none ∧
      (CompletedInv (create_task db uid tc newId now).1 ↔
        tc.status ≠ TaskStatus.completed)) ∧
    (u.status = some TaskStatus.completed →
      (apply_update task u now).completed_at = some now) ∧
    (u.status = some s → s ≠ TaskStatus.completed →
      (apply_update task u now).completed_at = none) ∧
    (u.status = some s → CompletedInv (apply_update task u now)) ∧
    (u.status = none → CompletedInv task →
      CompletedInv (apply_update task u now)) := by
  obtain ⟨-, -, hst, -, -, hca, -, -, -, -⟩ := apply_update_spec task u now
  refine ⟨⟨rfl, ?_⟩, ?_, ?_, ?_, ?_⟩
  · unfold CompletedInv create_task
    cases h : tc.status <;> simp [h]
  · intro h
    rw [hca, h]
  · intro h hs
    rw [hca, h]
    cases s <;> simp_all
  · intro h
    unfold CompletedInv
    rw [hca, hst, h]
    cases s <;> simp
  · intro h hinv
    unfold CompletedInv at *
    rw [hca, hst, h]
    simpa using hinv

/-- C1 witness: on concrete inputs, a task created as `todo` satisfies
the invariant, status updates set and clear `completed_at`, and a
status-free update preserves the invariant. -/
theorem c1_completed_at_invariant_witness :
    (CompletedInv (create_task db0 1
        { title := "T", description := none, status := TaskStatus.todo
          priority := TaskPriority.medium, due_date := none } 1 0).1 ↔
      TaskStatus.todo ≠ TaskStatus.completed) ∧
    (apply_update task1 { status := some TaskStatus.completed } 0).completed_at
        = some 0 ∧
    (apply_update task1 { status := some TaskStatus.todo } 0).completed_at
        = none ∧
    CompletedInv (apply_update task1 { status := some TaskStatus.in_progress } 0) ∧
    CompletedInv (apply_update task1 { title := some "U" } 0) :=
  ⟨(c1_completed_at_invariant db0 1
      { title := "T", description := none, status := TaskStatus.todo
        priority := TaskPriority.medium, due_date := none } 1 0 task1
      { status := some TaskStatus.completed } TaskStatus.completed).1.2,
   (c1_completed_at_invariant db0 1
      { title := "T", description := none, status := TaskStatus.todo
        priority := TaskPriority.medium, due_date := none } 1 0 task1
      { status := some TaskStatus.completed } TaskStatus.completed).2.1 rfl,
   (c1_completed_at_invariant db0 1
      { title := "T", description := none, status := TaskStatus.todo
        priority := TaskPriority.medium, due_date := none } 1 0 task1
      { status := some TaskStatus.todo } TaskStatus.todo).2.2.1 rfl
      (by decide),
   (c1_completed_at_invariant db0 1
      { title := "T", description := none, status := TaskStatus.todo
        priority := TaskPriority.medium, due_date := none } 1 0 task1
      { status := some TaskStatus.in_progress } TaskStatus.in_progress).2.2.2.1
      rfl,
   (c1_completed_at_invariant db0 1
      { title := "T", description := none, status := TaskStatus.todo
        priority := TaskPriority.medium, due_date := none } 1 0 task1
      { title := some "U" } TaskStatus.todo).2.2.2.2 rfl (by decide)⟩

/-- C2: for read-one, update and delete, a missing task id yields 404
before any ownership check (no hypothesis on the actor is needed); an
existing task owned by a different user yields 403; and with matching
ids the operation is allowed — so authorization allows iff the actor's
id equals the resource owner's id. -/
theorem c2_task_scoped_access (db : DB) (uname : String) (tid : Nat)
    (u : TaskUpdate) (now : Nat) (task : Task) (user : User) :
    (get_task db tid = none →
      handler_get_task db uname tid = HandlerResult.error 404 "Task not found" ∧
      handler_update_task db uname tid u now
        = (HandlerResult.error 404 "Task not found", db) ∧
      handler_delete_task db uname tid
        = (HandlerResult.error 404 "Task not found", db)) ∧
    (get_task db tid = some task → get_user_by_username db uname = some user →
      user.id ≠ task.user_id →
      handler_get_task db uname tid = HandlerResult.error 403 "Not authorized" ∧
      (handler_update_task db uname tid u now).1
        = HandlerResult.error 403 "Not authorized" ∧
      (handler_delete_task db uname tid).1
        = HandlerResult.error 403 "Not authorized") ∧
    (get_task db tid = some task → get_user_by_username db uname = some user →
      user.id = task.user_id →
      handler_get_task db uname tid = HandlerResult.ok task ∧
      (handler_update_task db uname tid u now).1
        = HandlerResult.ok (apply_update task u now) ∧
      (handler_delete_task db uname tid).1 = HandlerResult.ok ()) := by
  refine ⟨?_, ?_, ?_⟩
  · intro h
    exact ⟨by simp [handler_get_task, h], by simp [handler_update_task, h],
      by simp [handler_delete_task, h]⟩
  · intro ht hu hne
    have hne' : task.user_id ≠ user.id := fun h => hne h.symm
    exact ⟨by simp [handler_get_task, ht, hu, hne'],
      by simp [handler_update_task, ht, hu, hne'],
      by simp [handler_delete_task, ht, hu, hne']⟩
  · intro ht hu heq
    have heq' : task.user_id = user.id := heq.symm
    exact ⟨by simp [handler_get_task, ht, hu, heq'],
      by simp [handler_update_task, ht, hu, heq', update_task],
      by simp [handler_delete_task, ht, hu, heq']⟩

/-- C2 witness: against the concrete database, a nonexistent id gives
404, `bob` on `alice`'s task gives 403 on all three operations, and
`alice` is allowed. -/
theorem c2_task_scoped_access_witness :
    (handler_get_task db1 "bob" 99 = HandlerResult.error 404 "Task not found" ∧
      handler_update_task db1 "bob" 99 { } 5
        = (HandlerResult.error 404 "Task not found", db1) ∧
      handler_delete_task db1 "bob" 99
        = (HandlerResult.error 404 "Task not found", db1)) ∧
    (handler_get_task db1 "bob" 1 = HandlerResult.error 403 "Not authorized" ∧
      (handler_update_task db1 "bob" 1 { } 5).1
        = HandlerResult.error 403 "Not authorized" ∧
      (handler_delete_task db1 "bob" 1).1
        = HandlerResult.error 403 "Not authorized") ∧
    (handler_get_task db1 "alice" 1 = HandlerResult.ok task1 ∧
      (handler_update_task db1 "alice" 1 { } 5).1
        = HandlerResult.ok (apply_update task1 { } 5) ∧
      (handler_delete_task db1 "alice" 1).1 = HandlerResult.ok ()) :=
  ⟨(c2_task_scoped_access db1 "bob" 99 { } 5 task1 bob).1 rfl,
   (c2_task_scoped_access db1 "bob" 1 { } 5 task1 bob).2.1 rfl rfl (by decide),
   (c2_task_scoped_access db1 "alice" 1 { } 5 task1 alice).2.2 rfl rfl rfl⟩

/-- C4: a failing task-mutating operation performs no mutation: whenever
the update, delete or register handler does not succeed, the database it
returns is exactly the database it was given (a rejected update applies
none of its fields). -/
theorem c4_no_partial_mutation (db : DB) (uname : String) (tid : Nat)
    (u : TaskUpdate) (now : Nat) (uc : UserCreate)
    (hash : String → String) (newId : Nat) :
    (isOk (handler_update_task db uname tid u now).1 = false →
      (handler_update_task db uname tid u now).2 = db) ∧
    (isOk (handler_delete_task db uname tid).1 = false →
      (handler_delete_task db uname tid).2 = db) ∧
    (isOk (handler_register db uc hash newId).1 = false →
      (handler_register db uc hash newId).2 = db) := by
  refine ⟨?_, ?_, ?_⟩
  · intro h
    unfold handler_update_task at *
    cases ht : get_task db tid with
    | none => simp [ht]
    | some task =>
      cases hu : get_user_by_username db uname with
      | none => simp [ht, hu]
      | some user =>
        by_cases ho : task.user_id = user.id
        · rw [ht, hu] at h
          simp [ho, isOk] at h
        · simp [ht, hu, ho]
  · intro h
    unfold handler_delete_task at *
    cases ht : get_task db tid with
    | none => simp [ht]
    | some task =>
      cases hu : get_user_by_username db uname with
      | none => simp [ht, hu]
      | some user =>
        by_cases ho : task.user_id = user.id
        · rw [ht, hu] at h
          simp [ho, isOk] at h
        · simp [ht, hu, ho]
  · intro h
    unfold handler_register at *
    cases hn : get_user_by_username db uc.username with
    | some w => simp [hn]
    | none =>
      cases he : get_user_by_email db uc.email with
      | some w => simp [hn, he]
      | none =>
        rw [hn, he] at h
        simp [isOk] at h

/-- C4 witness: concrete rejected operations (missing task id, wrong
owner, duplicate username) leave the concrete database unchanged. -/
theorem c4_no_partial_mutation_witness :
    ((handler_update_task db1 "bob" 99
        { status := some TaskStatus.completed } 5).2 = db1 ∧
      (handler_delete_task db1 "bob" 99).2 = db1) ∧
    ((handler_update_task db1 "bob" 1
        { status := some TaskStatus.completed } 5).2 = db1 ∧
      (handler_register db1
        { username := "alice", email := "new@x.com", password := "p" }
        (fun s => s) 3).2 = db1) :=
  ⟨⟨(c4_no_partial_mutation db1 "bob" 99 { status := some TaskStatus.completed }
        5 { username := "alice", email := "new@x.com", password := "p" }
        (fun s => s) 3).1 (by decide),
    (c4_no_partial_mutation db1 "bob" 99 { status := some TaskStatus.completed }
        5 { username := "alice", email := "new@x.com", password := "p" }
        (fun s => s) 3).2.1 (by decide)⟩,
   ⟨(c4_no_partial_mutation db1 "bob" 1 { status := some TaskStatus.completed }
        5 { username := "alice", email := "new@x.com", password := "p" }
        (fun s => s) 3).1 (by decide),
    (c4_no_partial_mutation db1 "bob" 1 { status := some TaskStatus.completed }
        5 { username := "alice", email := "new@x.com", password := "p" }
        (fun s => s) 3).2.2 (by decide)⟩⟩

/-- C8: in the read-one, update and delete handlers, when the task
exists, the user resolved from the token's subject is dereferenced with
no user-not-found branch — if that lookup returns no user the handler
crashes — and the crash is unreachable exactly under the precondition
that the subject still maps to an existing user. -/
theorem c8_owner_check_deref (db : DB) (uname : String) (tid : Nat)
    (u : TaskUpdate) (now : Nat) (task : Task) :
    (get_task db tid = some task → get_user_by_username db uname = none →
      handler_get_task db uname tid = HandlerResult.crash ∧
      (handler_update_task db uname tid u now).1 = HandlerResult.crash ∧
      (handler_delete_task db uname tid).1 = HandlerResult.crash) ∧
    ((∃ user, get_user_by_username db uname = some user) →
      handler_get_task db uname tid ≠ HandlerResult.crash ∧
      (handler_update_task db uname tid u now).1 ≠ HandlerResult.crash ∧
      (handler_delete_task db uname tid).1 ≠ HandlerResult.crash) := by
  constructor
  · intro ht hu
    exact ⟨by simp [handler_get_task, ht, hu],
      by simp [handler_update_task, ht, hu],
      by simp [handler_delete_task, ht, hu]⟩
  · rintro ⟨user, hu⟩
    refine ⟨?_, ?_, ?_⟩
    · unfold handler_get_task
      cases ht : get_task db tid with
      | none => simp
      | some t => rw [hu]; by_cases ho : t.user_id = user.id <;> simp [ho]
    · unfold handler_update_task
      cases ht : get_task db tid with
      | none => simp
      | some t => rw [hu]; by_cases ho : t.user_id = user.id <;> simp [ho]
    · unfold handler_delete_task
      cases ht : get_task db tid with
      | none => simp
      | some t => rw [hu]; by_cases ho : t.user_id = user.id <;> simp [ho]

/-- C8 witness: in a database holding `alice`'s task but no user rows,
an authenticated subject that no longer resolves crashes all three
handlers; with the user present no handler crashes. -/
theorem c8_owner_check_deref_witness :
    (handler_get_task { users := [], tasks := [task1] } "alice" 1
        = HandlerResult.crash ∧
      (handler_update_task { users := [], tasks := [task1] } "alice" 1 { } 5).1
        = HandlerResult.crash ∧
      (handler_delete_task { users := [], tasks := [task1] } "alice" 1).1
        = HandlerResult.crash) ∧
    handler_get_task db1 "alice" 1 ≠ HandlerResult.crash :=
  ⟨(c8_owner_check_deref { users := [], tasks := [task1] } "alice" 1 { } 5
      task1).1 rfl rfl,
   ((c8_owner_check_deref db1 "alice" 1 { } 5 task1).2 ⟨alice, rfl⟩).1⟩

/-- C6: registration rejects a taken username with the duplicate-username
400 (checking the username before the email, so no email hypothesis is
needed); with the username free it rejects a taken email with the
duplicate-email 400; otherwise it creates the user and succeeds. -/
theorem c6_register_conflicts (db : DB) (uc : UserCreate)
    (hash : String → String) (newId : Nat) :
    ((∃ w, get_user_by_username db uc.username = some w) →
      handler_register db uc hash newId
        = (HandlerResult.error 400 "Username already registered", db)) ∧
    (get_user_by_username db uc.username = none →
      (∃ w, get_user_by_email db uc.email = some w) →
      handler_register db uc hash newId
        = (HandlerResult.error 400 "Email already registered", db)) ∧
    (get_user_by_username db uc.username = none →
      get_user_by_email db uc.email = none →
      handler_register db uc hash newId
        = (HandlerResult.ok (create_user db uc hash newId).1,
           (create_user db uc hash newId).2)) := by
  refine ⟨?_, ?_, ?_⟩
  · rintro ⟨w, hw⟩
    simp [handler_register, hw]
  · rintro hn ⟨w, hw⟩
    simp [handler_register, hn, hw]
  · intro hn he
    simp [handler_register, hn, he]

/-- C6 witness: the spec's scenario on the concrete database — a fresh
user registers successfully, re-registering `alice`'s username is the
duplicate-username 400, and a free username with `alice`'s email is the
duplicate-email 400. -/
theorem c6_register_conflicts_witness :
    handler_register db1
        { username := "carol", email := "carol@x.com", password := "p" }
        (fun s => s) 3
      = (HandlerResult.ok (create_user db1
          { username := "carol", email := "carol@x.com", password := "p" }
          (fun s => s) 3).1,
         (create_user db1
          { username := "carol", email := "carol@x.com", password := "p" }
          (fun s => s) 3).2) ∧
    handler_register db1
        { username := "alice", email := "other@x.com", password := "p" }
        (fun s => s) 3
      = (HandlerResult.error 400 "Username already registered", db1) ∧
    handler_register db1
        { username := "carol", email := "alice@x.com", password := "p" }
        (fun s => s) 3
      = (HandlerResult.error 400 "Email already registered", db1) :=
  ⟨(c6_register_conflicts db1
      { username := "carol", email := "carol@x.com", password := "p" }
      (fun s => s) 3).2.2 rfl rfl,
   (c6_register_conflicts db1
      { username := "alice", email := "other@x.com", password := "p" }
      (fun s => s) 3).1 ⟨alice, rfl⟩,
   (c6_register_conflicts db1
      { username := "carol", email := "alice@x.com", password := "p" }
      (fun s => s) 3).2.1 rfl ⟨alice, rfl⟩⟩

/-- C7: login succeeds with a bearer token iff the username resolves to
a user whose stored hash verifies against the supplied password; every
other outcome is the single 401 `InvalidCredentials` failure, identical
for an unknown username and for a wrong password. -/
theorem c7_login_credentials (db : DB) (username password : String)
    (verify : String → String → Bool) (secret ttl now : Nat) :
    ((∃ user, get_user_by_username db username = some user ∧
        verify password user.hashed_password = true) ↔
      (∃ tok, handler_login db username password verify secret ttl now
        = HandlerResult.ok tok)) ∧
    ((∀ tok, handler_login db username password verify secret ttl now
        ≠ HandlerResult.ok tok) →
      handler_login db username password verify secret ttl now
        = HandlerResult.error 401 "Incorrect username or password") := by
  constructor
  · constructor
    · rintro ⟨user, hu, hv⟩
      exact ⟨issue secret user.username ttl now, by simp [handler_login, hu, hv]⟩
    · rintro ⟨tok, htok⟩
      cases hu : get_user_by_username db username with
      | none => simp [handler_login, hu] at htok
      | some user =>
        by_cases hv : verify password user.hashed_password = true
        · exact ⟨user, rfl, hv⟩
        · simp [handler_login, hu, hv] at htok
  · intro hfail
    cases hu : get_user_by_username db username with
    | none => simp [handler_login, hu]
    | some user =>
      by_cases hv : verify password user.hashed_password = true
      · exact absurd (by simp [handler_login, hu, hv])
          (hfail (issue secret user.username ttl now))
      · simp [handler_login, hu, hv]

/-- C7 witness: on the concrete database, `alice` with the right
password gets a token, `alice` with a wrong password and an unknown
username both get the same 401. -/
theorem c7_login_credentials_witness :
    (∃ tok, handler_login db1 "alice" "pw" (fun p h => p == "pw" && h == "hA")
        1 30 0 = HandlerResult.ok tok) ∧
    handler_login db1 "alice" "wrong" (fun p h => p == "pw" && h == "hA") 1 30 0
      = HandlerResult.error 401 "Incorrect username or password" ∧
    handler_login db1 "nobody" "pw" (fun p h => p == "pw" && h == "hA") 1 30 0
      = HandlerResult.error 401 "Incorrect username or password" :=
  ⟨(c7_login_credentials db1 "alice" "pw" (fun p h => p == "pw" && h == "hA")
      1 30 0).1.mp ⟨alice, rfl, by decide⟩,
   (c7_login_credentials db1 "alice" "wrong" (fun p h => p == "pw" && h == "hA")
      1 30 0).2
     (by
       intro tok h
       have h' : HandlerResult.error 401 "Incorrect username or password"
           = HandlerResult.ok tok := h
       exact HandlerResult.noConfusion h'),
   (c7_login_credentials db1 "nobody" "pw" (fun p h => p == "pw" && h == "hA")
      1 30 0).2
     (by
       intro tok h
       have h' : HandlerResult.error 401 "Incorrect username or password"
           = HandlerResult.ok tok := h
       exact HandlerResult.noConfusion h')⟩

/-- Each task has exactly one of the three statuses, so the three
status filters partition any task list. -/
theorem length_eq_sum_status_counts (l : List Task) :
    l.length = (l.filter (fun t => t.status == TaskStatus.todo)).length
      + (l.filter (fun t => t.status == TaskStatus.in_progress)).length
      + (l.filter (fun t => t.status == TaskStatus.completed)).length := by
  induction l with
  | nil => rfl
  | cons t l ih =>
    rcases ht : t.status <;> simp [List.filter_cons, ht] <;> omega

/-- C5: the summary's total is the number of the owner's tasks, the
three per-status fields count the owner's tasks with each status, and
the completion rate is completed/total×100 — 0 with no division when
the owner has no tasks. -/
theorem c5_summary_counts (db : DB) (uid : Nat) :
    (get_task_summary db uid).total_tasks
        = db.tasks.countP (fun t => t.user_id == uid) ∧
    (get_task_summary db uid).completed_tasks
        = db.tasks.countP
            (fun t => t.user_id == uid && t.status == TaskStatus.completed) ∧
    (get_task_summary db uid).in_progress_tasks
        = db.tasks.countP
            (fun t => t.user_id == uid && t.status == TaskStatus.in_progress) ∧
    (get_task_summary db uid).todo_tasks
        = db.tasks.countP
            (fun t => t.user_id == uid && t.status == TaskStatus.todo) ∧
    ((get_task_summary db uid).total_tasks = 0 →
      (get_task_summary db uid).completion_rate = 0) ∧
    (0 < (get_task_summary db uid).total_tasks →
      (get_task_summary db uid).completion_rate
        = ((get_task_summary db uid).completed_tasks : ℚ)
            / ((get_task_summary db uid).total_tasks : ℚ) * 100) := by
  have hcount : ∀ (q : Task → Bool),
      ((db.tasks.filter (fun t => t.user_id == uid)).filter q).length
        = db.tasks.countP (fun t => t.user_id == uid && q t) := by
    intro q
    rw [List.filter_filter, ← List.countP_eq_length_filter]
    exact congrArg (fun f => List.countP f db.tasks)
      (funext fun t => Bool.and_comm (q t) (t.user_id == uid))
  refine ⟨?_, ?_, ?_, ?_, ?_, ?_⟩
  · simpa [get_task_summary, get_user_tasks] using
      (List.countP_eq_length_filter (fun t => t.user_id == uid) db.tasks).symm
  · simpa [get_task_summary, get_user_tasks] using
      hcount (fun t => t.status == TaskStatus.completed)
  · simpa [get_task_summary, get_user_tasks] using
      hcount (fun t => t.status == TaskStatus.in_progress)
  · simpa [get_task_summary, get_user_tasks] using
      hcount (fun t => t.status == TaskStatus.todo)
  · intro h0
    simp only [get_task_summary, get_user_tasks] at h0 ⊢
    rw [if_neg (by omega)]
  · intro hpos
    simp only [get_task_summary, get_user_tasks] at hpos ⊢
    rw [if_pos hpos]

/-- C5 witness: two tasks for owner 1, one completed — the summary
reports total 2, rate 50; an owner with no tasks gets rate 0. -/
theorem c5_summary_counts_witness :
    (get_task_summary dbSum 1).total_tasks = 2 ∧
    (get_task_summary dbSum 1).completion_rate = 50 ∧
    (get_task_summary db1 7).total_tasks = 0 ∧
    (get_task_summary db1 7).completion_rate = 0 := by
  refine ⟨by decide, ?_, by decide, ?_⟩
  · have h := (c5_summary_counts dbSum 1).2.2.2.2.2 (by decide)
    rw [h, show (get_task_summary dbSum 1).completed_tasks = 1 from by decide,
      show (get_task_summary dbSum 1).total_tasks = 2 from by decide]
    norm_num
  · exact (c5_summary_counts db1 7).2.2.2.2.1 (by decide)

/-- C10: the summary's total equals the sum of the three per-status
counts, and the completion rate is between 0 and 100. -/
theorem c10_summary_algebra (db : DB) (uid : Nat) :
    (get_task_summary db uid).total_tasks
      = (get_task_summary db uid).todo_tasks
        + (get_task_summary db uid).in_progress_tasks
        + (get_task_summary db uid).completed_tasks ∧
    0 ≤ (get_task_summary db uid).completion_rate ∧
    (get_task_summary db uid).completion_rate ≤ 100 := by
  refine ⟨?_, ?_, ?_⟩
  · simpa [get_task_summary, get_user_tasks] using
      length_eq_sum_status_counts (db.tasks.filter (fun t => t.user_id == uid))
  · simp only [get_task_summary, get_user_tasks]
    split
    · positivity
    · norm_num
  · simp only [get_task_summary, get_user_tasks]
    split
    · rename_i hpos
      set l := db.tasks.filter (fun t => t.user_id == uid) with hl
      have hle : (l.filter (fun t => t.status == TaskStatus.completed)).length
          ≤ l.length := List.length_filter_le _ _
      have htpos : (0 : ℚ) < (l.length : ℚ) := by exact_mod_cast hpos
      calc ((l.filter (fun t => t.status == TaskStatus.completed)).length : ℚ)
            / (l.length : ℚ) * 100
          ≤ 1 * 100 := by
            apply mul_le_mul_of_nonneg_right _ (by norm_num)
            exact (div_le_one htpos).mpr (by exact_mod_cast hle)
        _ = 100 := by norm_num
    · norm_num

/-- Distinct secrets sign any fixed payload with distinct tags. -/
theorem mac_secret_injective (s₁ s₂ : Nat) (subject : String) (expiry : Nat)
    (h : s₁ ≠ s₂) : mac s₁ subject expiry ≠ mac s₂ subject expiry := by
  intro hm
  exact h (Nat.pair_eq_pair.mp hm).1

/-- C3: validation accepts an untampered token under the issuing secret
strictly before its expiry and returns the embedded subject; it is
`Expired` whenever current time ≥ embedded expiry (so a ttl=0 token is
rejected at its own issuance instant), `BadSignature` on any tampered
signature segment or a token issued under a different secret, and
`InvalidToken` on a malformed token. -/
theorem c3_token_validation (secret secret2 : Nat) (subject : String)
    (ttl now now2 expiry sig : Nat) (raw : String) :
    (now2 < now + ttl →
      validate secret (issue secret subject ttl now) now2
        = Except.ok subject) ∧
    (now + ttl ≤ now2 →
      validate secret (issue secret subject ttl now) now2
        = Except.error TokenError.expired) ∧
    (validate secret (issue secret subject 0 now) now
      = Except.error TokenError.expired) ∧
    (sig ≠ mac secret subject expiry →
      validate secret (TokenWire.signed subject expiry sig) now
        = Except.error TokenError.badSignature) ∧
    (secret2 ≠ secret →
      validate secret2 (issue secret subject ttl now) now2
        = Except.error TokenError.badSignature) ∧
    (validate secret (TokenWire.malformed raw) now
      = Except.error TokenError.invalidToken) := by
  refine ⟨?_, ?_, ?_, ?_, ?_, rfl⟩
  · intro h
    simp [validate, issue, Nat.not_le.mpr h]
  · intro h
    simp [validate, issue, h]
  · simp [validate, issue]
  · intro h
    simp [validate, h]
  · intro h
    have hm : mac secret subject (now + ttl) ≠ mac secret2 subject (now + ttl) :=
      mac_secret_injective secret secret2 subject (now + ttl) (Ne.symm h)
    simp [validate, issue, hm]

/-- C3 witness: concrete tokens under secret 1 — acceptance before
expiry, rejection at and past expiry (including ttl=0), a tampered
signature, a foreign secret, and a malformed token. -/
theorem c3_token_validation_witness :
    validate 1 (issue 1 "alice" 5 0) 3 = Except.ok "alice" ∧
    validate 1 (issue 1 "alice" 5 0) 5 = Except.error TokenError.expired ∧
    validate 1 (issue 1 "alice" 0 4) 4 = Except.error TokenError.expired ∧
    validate 1 (TokenWire.signed "alice" 5 (mac 1 "alice" 5 + 1)) 3
      = Except.error TokenError.badSignature ∧
    validate 2 (issue 1 "alice" 5 0) 3 = Except.error TokenError.badSignature ∧
    validate 1 (TokenWire.malformed "zzz") 3
      = Except.error TokenError.invalidToken :=
  ⟨(c3_token_validation 1 1 "alice" 5 0 3 5 0 "zzz").1 (by omega),
   (c3_token_validation 1 1 "alice" 5 0 5 5 0 "zzz").2.1 (by omega),
   (c3_token_validation 1 1 "alice" 0 4 4 5 0 "zzz").2.2.1,
   (c3_token_validation 1 1 "alice" 5 0 3 5 (mac 1 "alice" 5 + 1) "zzz").2.2.2.1
     (by omega),
   (c3_token_validation 1 2 "alice" 5 0 3 5 0 "zzz").2.2.2.2.1 (by omega),
   (c3_token_validation 1 1 "alice" 5 0 3 5 0 "zzz").2.2.2.2.2⟩

end TodoApi
